import Mathlib

/-!
# HAHAWebServer: timer queue and connection manager

A shallow embedding of `haha/src/TimerQueue.cpp` and `haha/src/TcpServer.cpp`.

* Stateful C++ is rendered as explicit state passing.
* `std::function` callbacks are defunctionalised: a callback is a value of an
  inductive type and is run by an interpreter.
* Results of system calls and of virtual hooks (`recv`, `send`, `onMessage`,
  the clock) are arguments of the function that consumes them.
* Classes whose sources are not part of the files at hand (`TimerHeap`,
  `EventLoop`, `TcpConnection`, `Socket::accept`) are modelled from the
  design document; each such definition says so in its doc comment.
-/

namespace haha

/-! ## Timer and TimerHeap -/

/-- Timer, as the source builds and reads it (`Timer(id, expire, cb)`,
`timer.expire`, `timer.cb()`): a connection identifier, an expiration and a
callback. The callback type is a parameter; the server instantiates it with a
nullable bound handler. -/
structure Timer (κ : Type) where
  /-- Connection identifier: the client socket descriptor. -/
  id : Int
  /-- Expiration, a `TimeStamp` counted in microseconds. -/
  expire : Nat
  /-- Callback invoked on expiration. -/
  cb : κ
deriving DecidableEq, Repr

/-- Modelled from the spec: the class TimerHeap is not among the source files.
The design document fixes its contract only: a min-ordered collection of
timers, ordered by expiration ascending, with identity by connection
identifier. The collection is represented by the list of its timers; `top`
selects a timer of least expiration. -/
abbrev TimerHeap (κ : Type) := List (Timer κ)

namespace TimerHeap

variable {κ : Type}

/-- Modelled from the spec: `top()` of the missing TimerHeap, a timer of
minimum expiration (the first such timer on ties); `none` on an empty heap. -/
def top : TimerHeap κ → Option (Timer κ)
  | [] => none
  | t :: ts =>
    match top ts with
    | none => some t
    | some m => if m.expire < t.expire then some m else some t

/-- Modelled from the spec: `pop()` of the missing TimerHeap, removing the timer
that `top` returns. -/
def pop : TimerHeap κ → TimerHeap κ
  | [] => []
  | t :: ts =>
    match top ts with
    | none => []
    | some m => if m.expire < t.expire then t :: pop ts else ts

/-- Whether a timer with the given identifier is held. -/
def hasId (h : TimerHeap κ) (id : Int) : Bool := h.any (fun t => t.id == id)

/-- Modelled from the spec: "find by id; replace expiration and callback". -/
def replace (h : TimerHeap κ) (timer : Timer κ) : TimerHeap κ :=
  h.map (fun t => if t.id == timer.id then { t with expire := timer.expire, cb := timer.cb } else t)

/-- Modelled from the spec: `push(Timer t)`: insert. A duplicate identifier is
a programming error that release builds recover from by falling back to
adjust. -/
def push (h : TimerHeap κ) (timer : Timer κ) : TimerHeap κ :=
  if hasId h timer.id then replace h timer else h ++ [timer]

/-- Modelled from the spec: `adjust(Timer t)`: find by id; replace expiration
and callback; sift. If no matching id exists, fall back to push. -/
def adjust (h : TimerHeap κ) (timer : Timer κ) : TimerHeap κ :=
  if hasId h timer.id then replace h timer else h ++ [timer]

/-- Modelled from the spec: `remove(id)`: find by id; remove. -/
def del (h : TimerHeap κ) (id : Int) : TimerHeap κ :=
  h.filter (fun t => !(t.id == id))

end TimerHeap

/-! ## Kernel timer descriptor and TimerQueue -/

/-- The C `timespec`. -/
structure TimeSpec where
  tv_sec : Int
  tv_nsec : Int
deriving DecidableEq, Repr

/-- The C `itimerspec`. -/
structure ITimerSpec where
  it_value : TimeSpec
  it_interval : TimeSpec
deriving DecidableEq, Repr

/-- Modelled from the spec: the class TimeStamp is not among the source files.
The timer queue uses its two accessors only: `microsecond()` is the total
number of microseconds of the time span and `second()` the whole seconds in
it. -/
structure TimeStamp where
  micro : Nat
deriving DecidableEq, Repr

/-- Modelled from the spec: accessor `TimeStamp::microsecond()`. -/
def TimeStamp.microsecond (t : TimeStamp) : Nat := t.micro

/-- Modelled from the spec: accessor `TimeStamp::second()`, the whole seconds
`microsecond() / 1000000`. -/
def TimeStamp.second (t : TimeStamp) : Nat := t.micro / 1000000

/-- Conversion of a mathematical integer to `uint64_t`. -/
def toU64 (x : Int) : Int := x % 2 ^ 64

/-- Conversion of a mathematical integer to the signed 64-bit `time_t` / `long`. -/
def toI64 (x : Int) : Int := (x + 2 ^ 63) % 2 ^ 64 - 2 ^ 63

/-- TimerQueue: the descriptor `timeFd_`, the heap `timerHeap_`, and the state
the kernel keeps for the descriptor, namely the `itimerspec` most recently
handed to `timerfd_settime` (`none` while it was never programmed). -/
structure TimerQueue (κ : Type) where
  timeFd_ : Int
  timerHeap_ : TimerHeap κ
  programmed : Option ITimerSpec
deriving DecidableEq, Repr

namespace TimerQueue

variable {κ : Type}

/-- Constructor `TimerQueue::TimerQueue(int timeFd)`. -/
def new (timeFd : Int) : TimerQueue κ :=
  { timeFd_ := timeFd, timerHeap_ := [], programmed := none }

/-- Method `TimerQueue::push`. -/
def push (q : TimerQueue κ) (timer : Timer κ) : TimerQueue κ :=
  { q with timerHeap_ := q.timerHeap_.push timer }

/-- Method `TimerQueue::adjust`. -/
def adjust (q : TimerQueue κ) (timer : Timer κ) : TimerQueue κ :=
  { q with timerHeap_ := q.timerHeap_.adjust timer }

/-- The local `uint64_t second` of runOnce and runForever. -/
def secondPart (t : TimeStamp) : Int := toU64 (t.second : Int)

/-- The local `uint64_t nanosecond` of runOnce and runForever:
`(t.microsecond() - t.second() * 1000000) * 100`. -/
def nanosecondPart (t : TimeStamp) : Int :=
  toU64 ((((t.microsecond : Int) - (t.second : Int) * 1000000) * 100))

/-- The `it_value` both arming methods compute from the clock reading `now`. -/
def armValue (t : TimeStamp) (now : TimeSpec) : TimeSpec :=
  { tv_sec := toI64 (toU64 now.tv_sec + secondPart t)
    tv_nsec := toI64 (toU64 now.tv_nsec + nanosecondPart t) }

/-- Method `TimerQueue::runOnce`, with the result of `clock_gettime` as `now`. -/
def runOnce (q : TimerQueue κ) (t : TimeStamp) (now : TimeSpec) : TimerQueue κ :=
  { q with
    programmed := some ⟨armValue t now, ⟨0, 0⟩⟩ }

/-- Method `TimerQueue::runForever`, with the result of `clock_gettime` as `now`. -/
def runForever (q : TimerQueue κ) (t : TimeStamp) (now : TimeSpec) : TimerQueue κ :=
  { q with
    programmed := some ⟨armValue t now, ⟨toI64 (secondPart t), toI64 (nanosecondPart t)⟩⟩ }

end TimerQueue

/-! ## TimerQueue::handleTimeout -/

/-- Ways in which a run of the embedded code ends without returning. -/
inductive Fault
  /-- The iteration budget of the model was used up. -/
  | outOfFuel
  /-- A null `std::function` was invoked (`std::bad_function_call`). -/
  | badFunctionCall
  /-- A null `shared_ptr` was dereferenced. -/
  | nullDereference
deriving DecidableEq, Repr

/-- The program state a timer queue lives in: where the queue is kept in the
state `σ`, and what invoking a callback does to the state. `call` yields
`none` when the invocation throws. -/
structure Host (σ κ : Type) where
  queue : σ → TimerQueue κ
  setQueue : σ → TimerQueue κ → σ
  call : κ → σ → Option σ

/-- Method `TimerQueue::handleTimeout` for the clock reading `now`
(`TimeStamp::now()`). The initial `read` of the descriptor only fetches its
expiration count and changes nothing kept here. Each iteration of the loop
takes the top timer (the loop test `!timerHeap_->empty()` is the case that
there is one); if it is due its callback is invoked and the heap is popped,
otherwise the loop ends. The first argument after `now` bounds the
number of iterations. The second component of the result lists the timers
whose callback was invoked, in order of invocation. -/
def TimerQueue.handleTimeout {σ κ : Type} (H : Host σ κ) (now : Nat) :
    Nat → σ → Except Fault (σ × List (Timer κ))
  | 0, _ => .error .outOfFuel
  | fuel + 1, s =>
    match (H.queue s).timerHeap_.top with
    | none => .ok (s, [])
    | some timer =>
      if timer.expire ≤ now then
        match H.call timer.cb s with
        | none => .error .badFunctionCall
        | some s1 =>
          let q1 := H.queue s1
          let s2 := H.setQueue s1 { q1 with timerHeap_ := q1.timerHeap_.pop }
          match TimerQueue.handleTimeout H now fuel s2 with
          | .error e => .error e
          | .ok (s3, fired) => .ok (s3, timer :: fired)
      else .ok (s, [])

/-! ## Channel, TcpConnection, EventLoop -/

/-- The bound member functions that TcpServer installs as callbacks
(`std::bind(&TcpServer::handleX, this, weak_conn)`). A weak handle is the
identity of the TcpConnection object it refers to. -/
inductive Callback
  | handleServerAccept
  | handleConnectionRead (weak_conn : Nat)
  | handleConnectionWrite (weak_conn : Nat)
  | handleConnectionClose (weak_conn : Nat)
deriving DecidableEq, Repr

/-- Modelled from the spec: the class Channel is not among the source files; a
channel binds a descriptor to its interest events and the three callback
slots (read, write, close). -/
structure Channel where
  fd : Int
  events : Nat
  readCallback : Option Callback
  writeCallback : Option Callback
  closeCallback : Option Callback
deriving DecidableEq, Repr

/-- The epoll bit `EPOLLIN`. -/
def EPOLLIN : Nat := 1

/-- The epoll bit `EPOLLOUT`. -/
def EPOLLOUT : Nat := 4

/-- Constants whose declarations are outside the source files at hand. -/
structure Consts where
  /-- The event bits `kConnectionEvent`. -/
  kConnectionEvent : Nat
  /-- The keep-alive flag of a freshly constructed TcpConnection. -/
  keepAliveInit : Bool
deriving DecidableEq, Repr

/-- The field `type` of `TcpConnection::status`. -/
inductive StatusType
  | OK | AGAIN | COMPLETED | CLOSED | ERROR
deriving DecidableEq, Repr

/-- The enumeration `TcpServer::MESSAGE_STATUS`. -/
inductive MESSAGE_STATUS
  | OK | AGAIN
deriving DecidableEq, Repr

/-- Modelled from the spec: the class TcpConnection is not among the source
files; a connection has the descriptor of its owned socket, the channel
(`none` is a null pointer), the inbound and the outbound buffer, the
keep-alive flag and the disconnected flag. -/
structure TcpConnection where
  fd : Int
  channel : Option Channel
  inBuf : List Nat
  outBuf : List Nat
  keepAlive : Bool
  disconnected : Bool
deriving DecidableEq, Repr

/-- Modelled from the spec: the constructor of the missing class TcpConnection;
a new connection owns the socket, has no channel yet, empty buffers and is not
disconnected. -/
def TcpConnection.new (c : Consts) (sockFd : Int) : TcpConnection :=
  { fd := sockFd, channel := none, inBuf := [], outBuf := [],
    keepAlive := c.keepAliveInit, disconnected := false }

/-- Modelled from the spec: the state of the missing class EventLoop that the
server reaches: the poller registry (descriptor and registered interest events
of each registered channel) and the timer queue. -/
structure EventLoop where
  registered : List (Int × Nat)
  timerQueue : TimerQueue (Option Callback)
deriving DecidableEq, Repr

namespace EventLoop

/-- Whether a channel for the descriptor is registered with the poller. -/
def isRegistered (l : EventLoop) (fd : Int) : Bool := l.registered.any (fun p => p.1 == fd)

/-- Modelled from the spec: `add_channel`, registering the channel with its
current interest events. -/
def addChannel (l : EventLoop) (ch : Channel) : EventLoop :=
  { l with registered := (ch.fd, ch.events) :: l.registered.filter (fun p => !(p.1 == ch.fd)) }

/-- Modelled from the spec: `mod_channel`; modification of a channel that is
not registered fails and changes nothing. -/
def modChannel (l : EventLoop) (ch : Channel) : EventLoop :=
  { l with registered := l.registered.map (fun p => if p.1 == ch.fd then (ch.fd, ch.events) else p) }

/-- Modelled from the spec: `del_channel`; removal of an unknown channel is
idempotent. -/
def delChannel (l : EventLoop) (ch : Channel) : EventLoop :=
  { l with registered := l.registered.filter (fun p => !(p.1 == ch.fd)) }

/-- Modelled from the spec: `add_timer`, a push on the timer queue. -/
def addTimer (l : EventLoop) (t : Timer (Option Callback)) : EventLoop :=
  { l with timerQueue := l.timerQueue.push t }

/-- Modelled from the spec: `adjust_timer`, an adjust on the timer queue. -/
def adjustTimer (l : EventLoop) (t : Timer (Option Callback)) : EventLoop :=
  { l with timerQueue := l.timerQueue.adjust t }

/-- Modelled from the spec: `del_timer`, removal by the identifier of the given
timer. The timer queue of the source has no method that programs the
descriptor on removal, so the descriptor state is left as it is. -/
def delTimer (l : EventLoop) (t : Timer (Option Callback)) : EventLoop :=
  { l with timerQueue := { l.timerQueue with timerHeap_ := l.timerQueue.timerHeap_.del t.id } }

end EventLoop

/-! ## TcpServer -/

/-- A task handed to the thread pool (`std::bind(&TcpServer::onX, this, weak_conn)`). -/
inductive Task
  | onRecv (weak_conn : Nat)
  | onSend (weak_conn : Nat)
deriving DecidableEq, Repr

/-- Calls that leave the server: user hooks, socket I/O on a connection and
requests to the event loop. The argument is the connection object or the
descriptor concerned. -/
inductive Call
  | onNewConntection (conn : Nat)
  | onCloseConntection (conn : Nat)
  | onMessage (conn : Nat)
  | recv (conn : Nat)
  | send (conn : Nat)
  | addChannel (fd : Int)
  | modChannel (fd : Int)
  | delChannel (fd : Int)
  | addTimer (id : Int)
  | adjustTimer (id : Int)
  | delTimer (id : Int)
deriving DecidableEq, Repr

/-- TcpServer together with the objects it reaches.

* `conns`: the TcpConnection objects alive, keyed by object identity;
* `nextConn`: the identity the next `make_shared<TcpConnection>` yields;
* `connects_`: the connection table, descriptor to strong handle;
* `pinned`: strong handles held outside the table (by frames of other threads);
* `eventLoop_`: the loop; `pending`: the backlog of the listening socket,
  as the descriptors `accept` will return; `tasks`: the thread pool queue;
* `trace`: the calls issued so far, oldest first. -/
structure TcpServer where
  conns : List (Nat × TcpConnection)
  nextConn : Nat
  connects_ : List (Int × Nat)
  pinned : List Nat
  eventLoop_ : EventLoop
  pending : List Int
  tasks : List Task
  trace : List Call
deriving DecidableEq, Repr

namespace TcpServer

/-- The upgrade `weak_conn.lock()`: the object if it is still alive. -/
def lock (s : TcpServer) (weak_conn : Nat) : Option TcpConnection :=
  s.conns.lookup weak_conn

/-- Whether some strong handle (table entry or outside holder) refers to the object. -/
def referenced (s : TcpServer) (obj : Nat) : Bool :=
  s.connects_.any (fun e => e.2 == obj) || s.pinned.contains obj

/-- Destruction of the objects no strong handle refers to any more. -/
def collect (s : TcpServer) : TcpServer :=
  { s with conns := s.conns.filter (fun p => s.referenced p.1) }

/-- Write access to a connection object through a strong handle. -/
def setConn (s : TcpServer) (obj : Nat) (conn : TcpConnection) : TcpServer :=
  { s with conns := s.conns.map (fun p => if p.1 == obj then (obj, conn) else p) }

/-- Record an issued call. -/
def emit (s : TcpServer) (c : Call) : TcpServer :=
  { s with trace := s.trace ++ [c] }

/-- The statements of `TcpServer::handleConnectionClose` that follow its
guards, for the upgraded connection `conn` with channel `ch`: the hook
`onCloseConntection`, `loop->delChannel`, `setDisconnected(true)`, and the
erasure of the table entry found under `conn->getFd()`. The strong handles
this frame drops (the erased table entry, the local `conn`) are released when
it returns; objects left without a strong handle are destroyed then. -/
def handleConnectionCloseBody (s : TcpServer) (weak_conn : Nat) (conn : TcpConnection)
    (ch : Channel) : TcpServer :=
  let s1 := s.emit (.onCloseConntection weak_conn)
  let s2 := { s1.emit (.delChannel ch.fd) with eventLoop_ := s1.eventLoop_.delChannel ch }
  let s3 := s2.setConn weak_conn { conn with disconnected := true }
  let s4 := { s3 with connects_ := s3.connects_.filter (fun e => !(e.1 == conn.fd)) }
  s4.collect

/-- Method `TcpServer::handleConnectionClose`: nothing happens when the weak
handle does not upgrade, when the connection is disconnected, or when it has
no channel. -/
def handleConnectionClose (s : TcpServer) (weak_conn : Nat) : TcpServer :=
  match s.lock weak_conn with
  | none => s
  | some conn =>
    match conn.channel with
    | none => s
    | some ch => if conn.disconnected then s else handleConnectionCloseBody s weak_conn conn ch

/-- Method `TcpServer::handleConnected` for an accepted socket with descriptor
`sockFd`; `deadline` is the value of `TimeStamp::nowSecond(TcpConnection::TimeOut)`.
The call `sock->setNonBlocking()` sets a flag of the socket that nothing here
reads. Assigning to `connects_[connfd]` drops the strong handle of an entry
already stored under that descriptor. -/
def handleConnected (c : Consts) (deadline : Nat) (s : TcpServer) (sockFd : Int) : TcpServer :=
  let connfd := sockFd
  let obj := s.nextConn
  let weak_conn := obj
  let ch : Channel :=
    { fd := connfd
      events := EPOLLIN ||| c.kConnectionEvent
      readCallback := some (.handleConnectionRead weak_conn)
      writeCallback := some (.handleConnectionWrite weak_conn)
      closeCallback := some (.handleConnectionClose weak_conn) }
  let connection : TcpConnection := { TcpConnection.new c sockFd with channel := some ch }
  let s1 : TcpServer :=
    { s with
      conns := s.conns ++ [(obj, connection)]
      nextConn := obj + 1
      connects_ := (connfd, obj) :: s.connects_.filter (fun e => !(e.1 == connfd)) }
  let s2 := s1.collect.emit (.onNewConntection obj)
  let s3 := { s2.emit (.addChannel connfd) with eventLoop_ := s2.eventLoop_.addChannel ch }
  { s3.emit (.addTimer connfd) with
    eventLoop_ := s3.eventLoop_.addTimer ⟨connfd, deadline, some (.handleConnectionClose weak_conn)⟩ }

/-- Modelled from the spec: `Socket::accept` on the listening socket, whose body
is not among the source files: the next pending connection, or `none` when
the backlog is drained. -/
def accept (s : TcpServer) : Option Int × TcpServer :=
  match s.pending with
  | [] => (none, s)
  | fd :: rest => (some fd, { s with pending := rest })

/-- Method `TcpServer::handleServerAccept`. -/
def handleServerAccept (c : Consts) (deadline : Nat) (s : TcpServer) : TcpServer :=
  match s.accept with
  | (none, s1) => s1
  | (some sock, s1) => handleConnected c deadline s1 sock

/-- Method `TcpServer::handleConnectionRead`; `deadline` is the value of
`TimeStamp::nowSecond(TcpConnection::TimeOut)`. -/
def handleConnectionRead (deadline : Nat) (s : TcpServer) (weak_conn : Nat) : TcpServer :=
  match s.lock weak_conn with
  | none => s
  | some conn =>
    if conn.disconnected || conn.channel.isNone then s
    else
      let s1 := { s.emit (.adjustTimer conn.fd) with
        eventLoop_ := s.eventLoop_.adjustTimer ⟨conn.fd, deadline, none⟩ }
      { s1 with tasks := s1.tasks ++ [Task.onRecv weak_conn] }

/-- Method `TcpServer::handleConnectionWrite`; `deadline` is the value of
`TimeStamp::nowSecond(TcpConnection::TimeOut)`. -/
def handleConnectionWrite (deadline : Nat) (s : TcpServer) (weak_conn : Nat) : TcpServer :=
  match s.lock weak_conn with
  | none => s
  | some conn =>
    if conn.disconnected || conn.channel.isNone then s
    else
      let s1 := { s.emit (.adjustTimer conn.fd) with
        eventLoop_ := s.eventLoop_.adjustTimer ⟨conn.fd, deadline, none⟩ }
      { s1 with tasks := s1.tasks ++ [Task.onSend weak_conn] }

/-- The close sequence of the worker tasks: `loop->delTimer(Timer(fd,
nowSecond(0), nullptr))` followed by `handleConnectionClose(conn)`. Reading the
loop through a null channel is a fault. -/
def closeFromWorker (now : Nat) (s : TcpServer) (weak_conn : Nat) (conn : TcpConnection) :
    Except Fault TcpServer :=
  match conn.channel with
  | none => .error .nullDereference
  | some _ =>
    let s1 := { s.emit (.delTimer conn.fd) with
      eventLoop_ := s.eventLoop_.delTimer ⟨conn.fd, now, none⟩ }
    .ok (s1.handleConnectionClose weak_conn)

/-- The sequence `conn->setEvents(events); loop->modChannel(conn->getChannel().get())`
of the worker tasks. -/
def setEventsAndMod (s : TcpServer) (weak_conn : Nat) (conn : TcpConnection) (events : Nat) :
    Except Fault TcpServer :=
  match conn.channel with
  | none => .error .nullDereference
  | some ch =>
    let ch1 := { ch with events := events }
    let s1 := s.setConn weak_conn { conn with channel := some ch1 }
    .ok { s1.emit (.modChannel ch1.fd) with eventLoop_ := s1.eventLoop_.modChannel ch1 }

/-- Method `TcpServer::onRecv`. The outcome of `conn->recv()` is given by
`status` and the bytes it appended to the inbound buffer, the result of the
virtual hook `onMessage` by `msg`; `now` is the value of
`TimeStamp::nowSecond(0)`. -/
def onRecv (c : Consts) (now : Nat) (s : TcpServer) (weak_conn : Nat)
    (status : StatusType) (bytes : List Nat) (msg : MESSAGE_STATUS) : Except Fault TcpServer :=
  match s.lock weak_conn with
  | none => .ok s
  | some conn =>
    let conn1 := { conn with inBuf := conn.inBuf ++ bytes }
    let s1 := (s.setConn weak_conn conn1).emit (.recv weak_conn)
    if status = .CLOSED ∨ status = .ERROR then
      closeFromWorker now s1 weak_conn conn1
    else
      let s2 := s1.emit (.onMessage weak_conn)
      if msg = .AGAIN then
        setEventsAndMod s2 weak_conn conn1 (EPOLLIN ||| c.kConnectionEvent)
      else
        setEventsAndMod s2 weak_conn conn1 (EPOLLOUT ||| c.kConnectionEvent)

/-- Method `TcpServer::onSend`. The outcome of `conn->send()` is given by
`status` and the number of bytes it took off the outbound buffer; `now` is
the value of `TimeStamp::nowSecond(0)`. -/
def onSend (c : Consts) (now : Nat) (s : TcpServer) (weak_conn : Nat)
    (status : StatusType) (sent : Nat) : Except Fault TcpServer :=
  match s.lock weak_conn with
  | none => .ok s
  | some conn =>
    let conn1 := { conn with outBuf := conn.outBuf.drop sent }
    let s1 := (s.setConn weak_conn conn1).emit (.send weak_conn)
    match status with
    | .COMPLETED =>
      if conn1.keepAlive then
        setEventsAndMod s1 weak_conn conn1 (EPOLLIN ||| c.kConnectionEvent)
      else
        closeFromWorker now s1 weak_conn conn1
    | .AGAIN =>
      setEventsAndMod s1 weak_conn conn1 (EPOLLOUT ||| c.kConnectionEvent)
    | _ =>
      closeFromWorker now s1 weak_conn conn1

/-- Invocation of a bound callback by the loop thread. -/
def runCallback (c : Consts) (deadline : Nat) (s : TcpServer) : Callback → TcpServer
  | .handleServerAccept => handleServerAccept c deadline s
  | .handleConnectionRead w => handleConnectionRead deadline s w
  | .handleConnectionWrite w => handleConnectionWrite deadline s w
  | .handleConnectionClose w => handleConnectionClose s w

/-- The timer queue of the server's loop in its program state: a timer
callback is a nullable `std::function`, and invoking a null one throws. -/
def timerHost (c : Consts) (deadline : Nat) : Host TcpServer (Option Callback) where
  queue s := s.eventLoop_.timerQueue
  setQueue s q := { s with eventLoop_ := { s.eventLoop_ with timerQueue := q } }
  call k s := k.map (runCallback c deadline s)

/-- A server right after construction, with the given backlog on the
listening socket and timer descriptor `timeFd`. -/
def init (timeFd : Int) (pending : List Int) : TcpServer :=
  { conns := [], nextConn := 0, connects_ := [], pinned := []
    eventLoop_ := { registered := [], timerQueue := TimerQueue.new timeFd }
    pending := pending, tasks := [], trace := [] }

end TcpServer

/-! ## Worked states -/

/-- Constants of the worked states: `kConnectionEvent` with the value of
`EPOLLRDHUP`, connections not keep-alive at first. -/
def demoConsts : Consts := ⟨8192, false⟩

/-- The channel handleConnected creates for descriptor 5 and connection object 0. -/
def demoChannel : Channel :=
  { fd := 5, events := 8193
    readCallback := some (.handleConnectionRead 0)
    writeCallback := some (.handleConnectionWrite 0)
    closeCallback := some (.handleConnectionClose 0) }

/-- The connection object handleConnected creates for descriptor 5. -/
def demoConnection : TcpConnection :=
  { fd := 5, channel := some demoChannel, inBuf := [], outBuf := []
    keepAlive := false, disconnected := false }

/-- A server whose listening socket had one pending connection, descriptor 5,
after one run of the accept callback; the idle deadline is 100. -/
def oneConnection : TcpServer :=
  TcpServer.handleServerAccept demoConsts 100 (TcpServer.init 3 [5])

/-- A server with two accepted connections: descriptor 5 with deadline 200 and
descriptor 6 with deadline 100. -/
def twoConnections : TcpServer :=
  TcpServer.handleServerAccept demoConsts 100
    (TcpServer.handleServerAccept demoConsts 200 (TcpServer.init 3 [5, 6]))

/-- The server `twoConnections` after one read-ready dispatch on the connection
with descriptor 5 (object 0) that extends its deadline to 250: the heap then
holds the timer of descriptor 5 with a null callback and the timer of
descriptor 6, deadline 100, with its bound close handler. -/
def dispatchedConnections : TcpServer :=
  TcpServer.handleConnectionRead 250 twoConnections 0

/-- The connection of `oneConnection` after a close that ran while the frame
of another worker still held a strong handle to it: the object is alive and
its disconnected flag is set. -/
def closedButHeld : TcpServer :=
  TcpServer.handleConnectionClose { oneConnection with pinned := [0] } 0

/-! # Theorems -/

open TcpServer


/-! ## Facts about the heap -/

namespace TimerHeap

variable {κ : Type}

theorem top_cons (t : Timer κ) (ts : TimerHeap κ) :
    top (t :: ts) = match top ts with
      | none => some t
      | some m => if m.expire < t.expire then some m else some t := rfl

theorem pop_cons (t : Timer κ) (ts : TimerHeap κ) :
    pop (t :: ts) = match top ts with
      | none => []
      | some m => if m.expire < t.expire then t :: pop ts else ts := rfl

theorem top_eq_none {h : TimerHeap κ} (e : top h = none) : h = [] := by
  cases h with
  | nil => rfl
  | cons t ts =>
    rw [top_cons] at e
    split at e
    · cases e
    · split at e <;> cases e

theorem top_mem {h : TimerHeap κ} {m : Timer κ} (e : top h = some m) : m ∈ h := by
  induction h generalizing m with
  | nil => cases e
  | cons t ts ih =>
    rw [top_cons] at e
    split at e
    · cases e; exact List.mem_cons_self _ _
    · rename_i m1 h1
      split at e
      · cases e; exact List.mem_cons_of_mem _ (ih h1)
      · cases e; exact List.mem_cons_self _ _

theorem top_le {h : TimerHeap κ} {m : Timer κ} (e : top h = some m) :
    ∀ t ∈ h, m.expire ≤ t.expire := by
  induction h generalizing m with
  | nil => cases e
  | cons t ts ih =>
    rw [top_cons] at e
    intro u hu
    split at e
    · rename_i h0
      cases e
      have : ts = [] := top_eq_none h0
      subst this
      simp at hu
      subst hu
      exact Nat.le_refl _
    · rename_i m1 h1
      have hm1 := ih h1
      rcases List.mem_cons.1 hu with rfl | hu
      · split at e
        · cases e; omega
        · cases e; exact Nat.le_refl _
      · have := hm1 u hu
        split at e
        · cases e; exact this
        · cases e; omega

theorem pop_perm {h : TimerHeap κ} {m : Timer κ} (e : top h = some m) :
    h.Perm (m :: pop h) := by
  induction h generalizing m with
  | nil => cases e
  | cons t ts ih =>
    rw [top_cons] at e
    rw [pop_cons]
    split at e
    · rename_i h0
      cases e
      have : ts = [] := top_eq_none h0
      subst this
      exact List.Perm.refl _
    · rename_i m1 h1
      split at e
      · rename_i hlt
        cases e
        simp only [hlt, if_true]
        exact ((ih h1).cons t).trans (List.Perm.swap _ _ _)
      · rename_i hlt
        cases e
        simp only [hlt, if_false]
        exact List.Perm.refl _

theorem pop_filter {h : TimerHeap κ} {m : Timer κ} (p : Timer κ → Bool) (e : top h = some m)
    (hp : p m = false) : (pop h).filter p = h.filter p := by
  induction h generalizing m with
  | nil => cases e
  | cons t ts ih =>
    rw [top_cons] at e
    rw [pop_cons]
    split at e
    · rename_i h0
      cases e
      have : ts = [] := top_eq_none h0
      subst this
      simp [hp]
    · rename_i m1 h1
      split at e
      · rename_i hlt
        cases e
        simp only [hlt, if_true, List.filter_cons, ih h1 hp]
      · rename_i hlt
        cases e
        simp only [hlt, if_false, List.filter_cons, hp]
        simp

theorem length_pop {h : TimerHeap κ} {m : Timer κ} (e : top h = some m) :
    (pop h).length + 1 = h.length := by
  have := (pop_perm e).length_eq
  simpa using this.symm

theorem hasId_del (h : TimerHeap κ) (id : Int) : hasId (del h id) id = false := by
  unfold hasId del
  induction h with
  | nil => rfl
  | cons t ts ih =>
    by_cases e : t.id = id
    · rw [List.filter_cons_of_neg (by simpa using e)]
      exact ih
    · rw [List.filter_cons_of_pos (by simpa using e), List.any_cons, ih]
      simpa using e

end TimerHeap

/-! ## Facts about handleTimeout -/

namespace TimerQueue

variable {σ κ : Type}

theorem handleTimeout_succ (H : Host σ κ) (now fuel : Nat) (s : σ) :
    handleTimeout H now (fuel + 1) s =
      match (H.queue s).timerHeap_.top with
      | none => .ok (s, [])
      | some timer =>
        if timer.expire ≤ now then
          match H.call timer.cb s with
          | none => .error .badFunctionCall
          | some s1 =>
            match handleTimeout H now fuel
                (H.setQueue s1 { H.queue s1 with timerHeap_ := (H.queue s1).timerHeap_.pop }) with
            | .error e => .error e
            | .ok (s3, fired) => .ok (s3, timer :: fired)
        else .ok (s, []) := rfl

/-- The run of handleTimeout when the callbacks of the due timers return and
leave the heap as it is: it returns, having fired a sorted arrangement of the
due timers, and the timers not yet due stay in the heap as they were. -/
theorem handleTimeout_run (H : Host σ κ) (now : Nat)
    (hset : ∀ s q, H.queue (H.setQueue s q) = q) :
    ∀ (fuel : Nat) (s : σ),
      (∀ t ∈ (H.queue s).timerHeap_, t.expire ≤ now → ∀ s0, ∃ s1, H.call t.cb s0 = some s1 ∧
        (H.queue s1).timerHeap_ = (H.queue s0).timerHeap_) →
      (H.queue s).timerHeap_.length < fuel →
      ∃ s' fired, handleTimeout H now fuel s = .ok (s', fired) ∧
        fired.Perm ((H.queue s).timerHeap_.filter (fun t => decide (t.expire ≤ now))) ∧
        fired.Pairwise (fun a b => a.expire ≤ b.expire) ∧
        (H.queue s').timerHeap_ =
          (H.queue s).timerHeap_.filter (fun t => decide (now < t.expire)) := by
  intro fuel
  induction fuel with
  | zero => intro s _ hf; omega
  | succ fuel ih =>
    intro s hcall hfuel
    rw [handleTimeout_succ]
    cases htop : (H.queue s).timerHeap_.top with
    | none =>
      have hnil := TimerHeap.top_eq_none htop
      exact ⟨s, [], rfl, by simp [hnil], List.Pairwise.nil, by simp [hnil]⟩
    | some m =>
      have hmin := TimerHeap.top_le htop
      have hmem := TimerHeap.top_mem htop
      have hperm := TimerHeap.pop_perm htop
      by_cases hdue : m.expire ≤ now
      · obtain ⟨s1, hc, hheap⟩ := hcall m hmem hdue s
        simp only [hdue, if_true, hc]
        have hq2 : (H.queue (H.setQueue s1
            { H.queue s1 with timerHeap_ := (H.queue s1).timerHeap_.pop })).timerHeap_ =
            (H.queue s).timerHeap_.pop := by
          rw [hset, hheap]
        have hsub : ∀ t ∈ (H.queue s).timerHeap_.pop, t ∈ (H.queue s).timerHeap_ := fun t ht =>
          hperm.symm.subset (List.mem_cons_of_mem _ ht)
        obtain ⟨s3, fired, hrun, hp, hsorted, hrest⟩ := ih _
          (by rw [hq2]; exact fun t ht => hcall t (hsub t ht))
          (by rw [hq2]; have := TimerHeap.length_pop htop; omega)
        rw [hq2] at hp hrest
        refine ⟨s3, m :: fired, by rw [hrun], ?_, ?_, ?_⟩
        · have h1 := hperm.filter (fun t => decide (t.expire ≤ now))
          rw [List.filter_cons_of_pos (by simpa using hdue)] at h1
          exact (hp.cons m).trans h1.symm
        · refine List.pairwise_cons.2 ⟨fun t ht => ?_, hsorted⟩
          have : t ∈ (H.queue s).timerHeap_.pop := (List.mem_filter.1 (hp.subset ht)).1
          exact hmin t (hsub t this)
        · rw [hrest]
          exact TimerHeap.pop_filter _ htop (by simpa using hdue)
      · simp only [hdue, if_false]
        refine ⟨s, [], rfl, ?_, List.Pairwise.nil, ?_⟩
        · have : (H.queue s).timerHeap_.filter (fun t => decide (t.expire ≤ now)) = [] := by
            rw [List.filter_eq_nil_iff]
            intro t ht
            have := hmin t ht
            simp; omega
          rw [this]
        · symm
          rw [List.filter_eq_self]
          intro t ht
          have := hmin t ht
          simp; omega

end TimerQueue

/-! ## Facts about association lists -/

theorem lookup_cons_self {β : Type} (k : Nat) (v : β) (l : List (Nat × β)) :
    List.lookup k ((k, v) :: l) = some v := by
  rw [List.lookup_cons, beq_self_eq_true]

theorem lookup_cons_ne {α β : Type} [BEq α] [LawfulBEq α] {k a : α} (v : β) (l : List (α × β))
    (h : k ≠ a) : List.lookup k ((a, v) :: l) = List.lookup k l := by
  have h' : (k == a) = false := by simpa using h
  rw [List.lookup_cons, h']

theorem lookup_filter_ne {α β : Type} [BEq α] [LawfulBEq α] (l : List (α × β)) (k : α) :
    (l.filter (fun e => !(e.1 == k))).lookup k = none := by
  induction l with
  | nil => rfl
  | cons p l ih =>
    obtain ⟨a, b⟩ := p
    by_cases h : a = k
    · subst h
      rw [List.filter_cons_of_neg (by simp)]
      exact ih
    · rw [List.filter_cons_of_pos (by simpa using h), lookup_cons_ne _ _ (fun e => h e.symm)]
      exact ih

theorem any_filter_ne {α β : Type} [BEq α] [LawfulBEq α] (l : List (α × β)) (k : α) :
    (l.filter (fun e => !(e.1 == k))).any (fun e => e.1 == k) = false := by
  induction l with
  | nil => rfl
  | cons p l ih =>
    by_cases h : p.1 = k
    · rw [List.filter_cons_of_neg (by simpa using h)]
      exact ih
    · rw [List.filter_cons_of_pos (by simpa using h), List.any_cons, ih]
      simpa using h

theorem lookup_map_set {β : Type} (l : List (Nat × β)) (k : Nat) (v v0 : β)
    (h : l.lookup k = some v0) :
    (l.map (fun p => if p.1 == k then (k, v) else p)).lookup k = some v := by
  induction l with
  | nil => cases h
  | cons p l ih =>
    obtain ⟨a, b⟩ := p
    rw [List.map_cons]
    by_cases hk : a = k
    · subst hk
      rw [if_pos (by simp)]
      exact lookup_cons_self _ _ _
    · rw [if_neg (by simpa using hk), lookup_cons_ne _ _ (fun e => hk e.symm)]
      rw [lookup_cons_ne _ _ (fun e => hk e.symm)] at h
      exact ih h

theorem lookup_filter_map_set {β : Type} (l : List (Nat × β)) (k : Nat) (v : β)
    (q : Nat × β → Bool) :
    ((l.map (fun p => if p.1 == k then (k, v) else p)).filter q).lookup k = none ∨
    ((l.map (fun p => if p.1 == k then (k, v) else p)).filter q).lookup k = some v := by
  induction l with
  | nil => exact Or.inl rfl
  | cons p l ih =>
    obtain ⟨a, b⟩ := p
    rw [List.map_cons]
    by_cases hk : a = k
    · subst hk
      rw [if_pos (by simp)]
      by_cases hq : q (a, v) = true
      · rw [List.filter_cons_of_pos hq]
        exact Or.inr (lookup_cons_self _ _ _)
      · rw [List.filter_cons_of_neg hq]
        exact ih
    · rw [if_neg (by simpa using hk)]
      by_cases hq : q (a, b) = true
      · rw [List.filter_cons_of_pos hq, lookup_cons_ne _ _ (fun e => hk e.symm)]
        exact ih
      · rw [List.filter_cons_of_neg hq]
        exact ih


/-! ## Facts about handleConnectionClose -/

namespace TcpServer

theorem handleConnectionClose_dead (s : TcpServer) (w : Nat) (h : s.lock w = none) :
    s.handleConnectionClose w = s := by
  simp only [handleConnectionClose, h]

theorem handleConnectionClose_nochannel (s : TcpServer) (w : Nat) (conn : TcpConnection)
    (h : s.lock w = some conn) (hch : conn.channel = none) :
    s.handleConnectionClose w = s := by
  simp only [handleConnectionClose, h, hch]

theorem handleConnectionClose_disconnected (s : TcpServer) (w : Nat) (conn : TcpConnection)
    (h : s.lock w = some conn) (hd : conn.disconnected = true) :
    s.handleConnectionClose w = s := by
  simp only [handleConnectionClose, h]
  split
  · rfl
  · simp [hd]

theorem handleConnectionClose_live (s : TcpServer) (w : Nat) (conn : TcpConnection) (ch : Channel)
    (h : s.lock w = some conn) (hch : conn.channel = some ch) (hd : conn.disconnected = false) :
    s.handleConnectionClose w = handleConnectionCloseBody s w conn ch := by
  simp only [handleConnectionClose, h, hch, hd]
  rfl

theorem closeBody_lock (s : TcpServer) (w : Nat) (conn : TcpConnection) (ch : Channel) :
    (handleConnectionCloseBody s w conn ch).lock w = none ∨
    (handleConnectionCloseBody s w conn ch).lock w = some { conn with disconnected := true } := by
  unfold handleConnectionCloseBody lock collect setConn
  exact lookup_filter_map_set _ _ _ _

theorem closeBody_trace (s : TcpServer) (w : Nat) (conn : TcpConnection) (ch : Channel) :
    (handleConnectionCloseBody s w conn ch).trace = s.trace ++ [.onCloseConntection w, .delChannel ch.fd] := by
  simp [handleConnectionCloseBody, collect, setConn, emit]

theorem closeBody_connects (s : TcpServer) (w : Nat) (conn : TcpConnection) (ch : Channel) :
    (handleConnectionCloseBody s w conn ch).connects_ = s.connects_.filter (fun e => !(e.1 == conn.fd)) := rfl

theorem closeBody_registered (s : TcpServer) (w : Nat) (conn : TcpConnection) (ch : Channel) :
    (handleConnectionCloseBody s w conn ch).eventLoop_.registered =
      s.eventLoop_.registered.filter (fun p => !(p.1 == ch.fd)) := rfl

theorem closeBody_timerQueue (s : TcpServer) (w : Nat) (conn : TcpConnection) (ch : Channel) :
    (handleConnectionCloseBody s w conn ch).eventLoop_.timerQueue = s.eventLoop_.timerQueue := rfl

theorem handleConnectionClose_timerQueue (s : TcpServer) (w : Nat) :
    (s.handleConnectionClose w).eventLoop_.timerQueue = s.eventLoop_.timerQueue := by
  unfold handleConnectionClose
  split
  · rfl
  · split
    · rfl
    · split <;> rfl

/-- The close of a live connection in any state: the table has no entry for
its descriptor and its channel is not registered afterwards, the close hook
and delChannel are the calls issued, and the timer queue is the one from
before. -/
theorem handleConnectionClose_live_result (s : TcpServer) (w : Nat) (conn : TcpConnection)
    (ch : Channel) (h : s.lock w = some conn) (hch : conn.channel = some ch)
    (hd : conn.disconnected = false) :
    (s.handleConnectionClose w).connects_.lookup conn.fd = none ∧
    (s.handleConnectionClose w).eventLoop_.isRegistered ch.fd = false ∧
    (s.handleConnectionClose w).trace = s.trace ++ [.onCloseConntection w, .delChannel ch.fd] ∧
    (s.handleConnectionClose w).eventLoop_.timerQueue = s.eventLoop_.timerQueue := by
  rw [handleConnectionClose_live s w conn ch h hch hd]
  refine ⟨?_, ?_, closeBody_trace s w conn ch, rfl⟩
  · rw [closeBody_connects]; exact lookup_filter_ne _ _
  · unfold EventLoop.isRegistered
    rw [closeBody_registered]; exact any_filter_ne _ _

theorem handleConnectionClose_twice (s : TcpServer) (w : Nat) :
    (s.handleConnectionClose w).handleConnectionClose w = s.handleConnectionClose w := by
  cases h : s.lock w with
  | none => rw [handleConnectionClose_dead s w h, handleConnectionClose_dead s w h]
  | some conn =>
    cases hch : conn.channel with
    | none =>
      rw [handleConnectionClose_nochannel s w conn h hch,
        handleConnectionClose_nochannel s w conn h hch]
    | some ch =>
      cases hd : conn.disconnected with
      | true =>
        rw [handleConnectionClose_disconnected s w conn h hd,
          handleConnectionClose_disconnected s w conn h hd]
      | false =>
        rw [handleConnectionClose_live s w conn ch h hch hd]
        rcases closeBody_lock s w conn ch with h1 | h1
        · exact handleConnectionClose_dead _ w h1
        · exact handleConnectionClose_disconnected _ w _ h1 rfl

end TcpServer


/-! ## Arming arithmetic (C9, C10) -/

/-- The `it_value` computed by the arming methods when nothing wraps: the whole
seconds of the delta are added to `tv_sec`, and one hundred times its
remaining microseconds to `tv_nsec`, without carry. -/
theorem armValue_of_small (t : TimeStamp) (now : TimeSpec)
    (h1 : 0 ≤ now.tv_sec) (h2 : 0 ≤ now.tv_nsec) (h3 : now.tv_nsec < 10 ^ 9)
    (h4 : now.tv_sec + t.second < 2 ^ 62) :
    TimerQueue.armValue t now =
      ⟨now.tv_sec + t.second, now.tv_nsec + ((t.microsecond % 1000000 : Nat) : Int) * 100⟩ := by
  have e64 : (2 : Int) ^ 64 = 18446744073709551616 := by norm_num
  have e63 : (2 : Int) ^ 63 = 9223372036854775808 := by norm_num
  have e62 : (2 : Int) ^ 62 = 4611686018427387904 := by norm_num
  have e9 : (10 : Int) ^ 9 = 1000000000 := by norm_num
  rw [e62] at h4
  rw [e9] at h3
  simp only [TimerQueue.armValue, TimerQueue.secondPart, TimerQueue.nanosecondPart, toU64, toI64,
    TimeStamp.second, TimeStamp.microsecond, e64, e63] at *
  have hs : ((t.micro / 1000000 : Nat) : Int) = (t.micro : Int) / 1000000 := by norm_cast
  have hm : ((t.micro % 1000000 : Nat) : Int) = (t.micro : Int) % 1000000 := by norm_cast
  rw [hs] at h4 ⊢
  rw [hm]
  have hnn : (0 : Int) ≤ t.micro := Int.ofNat_nonneg _
  congr 1 <;> omega

/-- Claim C9 fails on the code. For the delta of one microsecond and the clock
reading 0 s 0 ns, runOnce programs the one-shot expiration 0 s 100 ns, while
now plus t is 1000 ns: the sub-second part of the delta is multiplied by 100,
not by 1000. -/
theorem runOnce_scales_microseconds_by_100 :
    (TimerQueue.runOnce (TimerQueue.new 3 : TimerQueue (Option Callback)) ⟨1⟩ ⟨0, 0⟩).programmed
      = some ⟨⟨0, 100⟩, ⟨0, 0⟩⟩ ∧
    (TimerQueue.armValue ⟨1⟩ ⟨0, 0⟩).tv_sec * 10 ^ 9 + (TimerQueue.armValue ⟨1⟩ ⟨0, 0⟩).tv_nsec
      ≠ (0 : Int) * 10 ^ 9 + 0 + ((⟨1⟩ : TimeStamp).microsecond : Int) * 1000 := by
  decide

/-- Claim C10 fails on the code. For the delta of one microsecond and the valid
clock reading 0 s 999999999 ns, both runOnce and runForever hand
`timerfd_settime` an `it_value` with `tv_nsec` = 1000000099, which is not
below 10^9: the sum is not carried into `tv_sec`. -/
theorem arming_tv_nsec_out_of_range :
    (TimerQueue.runOnce (TimerQueue.new 3 : TimerQueue (Option Callback)) ⟨1⟩
        ⟨0, 999999999⟩).programmed = some ⟨⟨0, 1000000099⟩, ⟨0, 0⟩⟩ ∧
    (TimerQueue.runForever (TimerQueue.new 3 : TimerQueue (Option Callback)) ⟨1⟩
        ⟨0, 999999999⟩).programmed = some ⟨⟨0, 1000000099⟩, ⟨0, 100⟩⟩ ∧
    ¬ ((TimerQueue.armValue ⟨1⟩ ⟨0, 999999999⟩).tv_nsec < 10 ^ 9) := by
  decide


/-- The heap of `dispatchedConnections`. -/
theorem dispatchedConnections_heap :
    ((timerHost demoConsts 0).queue dispatchedConnections).timerHeap_ =
      [⟨5, 250, none⟩, ⟨6, 100, some (.handleConnectionClose 1)⟩] := by
  decide

/-- No callback of the server modifies the heap: a null callback is never
entered, and a bound close handler leaves the timer queue alone. -/
theorem dispatchedConnections_callbacks_keep_heap :
    ∀ t ∈ ((timerHost demoConsts 0).queue dispatchedConnections).timerHeap_, ∀ s0 s1,
      (timerHost demoConsts 0).call t.cb s0 = some s1 →
      ((timerHost demoConsts 0).queue s1).timerHeap_ =
        ((timerHost demoConsts 0).queue s0).timerHeap_ := by
  intro t ht s0 s1 h
  rw [dispatchedConnections_heap] at ht
  simp only [List.mem_cons, List.mem_singleton, List.not_mem_nil, or_false] at ht
  rcases ht with rfl | rfl
  · cases h
  · cases h
    show (s0.handleConnectionClose 1).eventLoop_.timerQueue.timerHeap_ = _
    rw [handleConnectionClose_timerQueue]
    rfl

/-- The timers of `dispatchedConnections` that are due at time 150 carry a bound
close handler, which returns and leaves the heap alone. -/
theorem dispatchedConnections_due_callbacks :
    ∀ t ∈ ((timerHost demoConsts 0).queue dispatchedConnections).timerHeap_, t.expire ≤ 150 →
      ∀ s0, ∃ s1, (timerHost demoConsts 0).call t.cb s0 = some s1 ∧
        ((timerHost demoConsts 0).queue s1).timerHeap_ =
          ((timerHost demoConsts 0).queue s0).timerHeap_ := by
  intro t ht hdue s0
  rw [dispatchedConnections_heap] at ht
  simp only [List.mem_cons, List.mem_singleton, List.not_mem_nil, or_false] at ht
  rcases ht with rfl | rfl
  · exact absurd hdue (by decide)
  · refine ⟨s0.handleConnectionClose 1, rfl, ?_⟩
    show (s0.handleConnectionClose 1).eventLoop_.timerQueue.timerHeap_ = _
    rw [handleConnectionClose_timerQueue]
    rfl

/-- Claim C4 fails on the code. In `dispatchedConnections` the heap holds the
timer of descriptor 5 (expire 250) with a null callback and the timer of
descriptor 6 (expire 100) with a bound close handler; no callback modifies
the heap. At time 300 both timers are due, yet handleTimeout returns for no
iteration budget: it fires the timer of descriptor 6, then invokes the null
callback of the timer of descriptor 5, which throws; that timer is neither
fired nor removed. -/
theorem handleTimeout_throws_on_due_null_callback :
    ((timerHost demoConsts 0).queue dispatchedConnections).timerHeap_ =
      [⟨5, 250, none⟩, ⟨6, 100, some (.handleConnectionClose 1)⟩] ∧
    (∀ t ∈ ((timerHost demoConsts 0).queue dispatchedConnections).timerHeap_, ∀ s0 s1,
      (timerHost demoConsts 0).call t.cb s0 = some s1 →
      ((timerHost demoConsts 0).queue s1).timerHeap_ =
        ((timerHost demoConsts 0).queue s0).timerHeap_) ∧
    (∀ fuel, TimerQueue.handleTimeout (timerHost demoConsts 0) 300 (fuel + 2)
      dispatchedConnections = .error .badFunctionCall) ∧
    (∀ fuel r, TimerQueue.handleTimeout (timerHost demoConsts 0) 300 fuel
      dispatchedConnections ≠ .ok r) := by
  have hthrow : ∀ fuel, TimerQueue.handleTimeout (timerHost demoConsts 0) 300 (fuel + 2)
      dispatchedConnections = .error .badFunctionCall := fun _ => rfl
  refine ⟨dispatchedConnections_heap, dispatchedConnections_callbacks_keep_heap, hthrow, ?_⟩
  intro fuel r h
  match fuel, h with
  | 0, h => cases h
  | 1, h => cases h
  | fuel + 2, h => rw [hthrow fuel] at h; cases h

/-- Claim C4 as amended. When the callbacks of the timers with expire at most
now are callable (invoking them returns) and do not modify the heap,
handleTimeout returns (any budget above the heap size suffices); the timers
whose callback it invoked are exactly the timers with expire at most now,
each once, in ascending order of expiration; and the heap it leaves consists
of the timers with expire above now, as they were. Nothing is asked of the
callbacks of timers that are not due. -/
theorem handleTimeout_fires_exactly_the_due_timers {σ κ : Type} (H : Host σ κ)
    (now fuel : Nat) (s : σ)
    (hset : ∀ s q, H.queue (H.setQueue s q) = q)
    (hcall : ∀ t ∈ (H.queue s).timerHeap_, t.expire ≤ now → ∀ s0, ∃ s1,
      H.call t.cb s0 = some s1 ∧ (H.queue s1).timerHeap_ = (H.queue s0).timerHeap_)
    (hfuel : (H.queue s).timerHeap_.length < fuel) :
    ∃ s' fired, TimerQueue.handleTimeout H now fuel s = .ok (s', fired) ∧
      fired.Perm ((H.queue s).timerHeap_.filter (fun t => decide (t.expire ≤ now))) ∧
      fired.Pairwise (fun a b => a.expire ≤ b.expire) ∧
      (H.queue s').timerHeap_ =
        (H.queue s).timerHeap_.filter (fun t => decide (now < t.expire)) :=
  TimerQueue.handleTimeout_run H now hset fuel s hcall hfuel

/-- Witness for C4 as amended: `dispatchedConnections` at time 150, where the due
timer of descriptor 6 carries a close handler and the timer of descriptor 5,
not yet due, a null callback. -/
theorem handleTimeout_fires_exactly_the_due_timers_witness :
    ∃ s' fired, TimerQueue.handleTimeout (timerHost demoConsts 0) 150 3 dispatchedConnections
        = .ok (s', fired) ∧
      fired.Perm (((timerHost demoConsts 0).queue dispatchedConnections).timerHeap_.filter
        (fun t => decide (t.expire ≤ 150))) ∧
      fired.Pairwise (fun a b => a.expire ≤ b.expire) ∧
      ((timerHost demoConsts 0).queue s').timerHeap_ =
        ((timerHost demoConsts 0).queue dispatchedConnections).timerHeap_.filter
          (fun t => decide (150 < t.expire)) :=
  handleTimeout_fires_exactly_the_due_timers (timerHost demoConsts 0) 150 3
    dispatchedConnections (fun _ _ => rfl) dispatchedConnections_due_callbacks (by decide)

/-! ## The close handler (C1, C2) -/

/-- Claim C1 fails on the code. In the server with one accepted connection
(descriptor 5, object 0, all three entries present), running the close
callback bound to the channel removes the table entry and the channel
registration, but the timer with id 5 is still in the timer queue when
handleConnectionClose returns: the handler never asks for its removal. -/
theorem handleConnectionClose_leaves_timer_queued :
    oneConnection.connects_.lookup 5 = some 0 ∧
    oneConnection.eventLoop_.isRegistered 5 = true ∧
    oneConnection.eventLoop_.timerQueue.timerHeap_.hasId 5 = true ∧
    (oneConnection.lock 0).map (fun conn => (conn.fd, conn.disconnected, conn.channel.isSome))
      = some (5, false, true) ∧
    (oneConnection.lock 0).bind (fun conn => conn.channel.bind (fun ch => ch.closeCallback))
      = some (.handleConnectionClose 0) ∧
    (runCallback demoConsts 0 oneConnection (.handleConnectionClose 0)).connects_.lookup 5
      = none ∧
    (runCallback demoConsts 0 oneConnection (.handleConnectionClose 0)).eventLoop_.isRegistered 5
      = false ∧
    (runCallback demoConsts 0 oneConnection
      (.handleConnectionClose 0)).eventLoop_.timerQueue.timerHeap_.hasId 5 = true := by
  decide

/-- Claim C2. Calling handleConnectionClose a second time changes nothing: the
whole state after two calls (connection table, channel registry, connection
objects with their disconnected flags, trace of issued calls) is the state
after one call. Over the two calls the hook onCloseConntection is invoked
once when the connection was live at the first call (upgrade succeeds, not
disconnected, channel set) and not at all otherwise. -/
theorem handleConnectionClose_idempotent (s : TcpServer) (w : Nat) :
    (s.handleConnectionClose w).handleConnectionClose w = s.handleConnectionClose w ∧
    ((s.handleConnectionClose w).handleConnectionClose w).trace.count (.onCloseConntection w)
      = s.trace.count (.onCloseConntection w) +
        (match s.lock w with
         | none => 0
         | some conn => if conn.disconnected = true ∨ conn.channel = none then 0 else 1) := by
  refine ⟨handleConnectionClose_twice s w, ?_⟩
  rw [handleConnectionClose_twice]
  cases h : s.lock w with
  | none => rw [handleConnectionClose_dead s w h]; rfl
  | some conn =>
    cases hch : conn.channel with
    | none => rw [handleConnectionClose_nochannel s w conn h hch]; simp [hch]
    | some ch =>
      cases hd : conn.disconnected with
      | true => rw [handleConnectionClose_disconnected s w conn h hd]; simp [hd]
      | false =>
        rw [handleConnectionClose_live s w conn ch h hch hd, closeBody_trace]
        simp [List.count_cons, hch, hd]

/-! ## The accept callback (C6) -/

/-- Claim C6 fails on the code. With two pending connections (descriptors 5
and 6), one run of handleServerAccept accepts the first only: one table entry
is created and descriptor 6 is still pending. -/
theorem handleServerAccept_leaves_backlog :
    (handleServerAccept demoConsts 100 (TcpServer.init 3 [5, 6])).pending = [6] ∧
    (handleServerAccept demoConsts 100 (TcpServer.init 3 [5, 6])).connects_ = [(5, 0)] ∧
    ¬ ((handleServerAccept demoConsts 100 (TcpServer.init 3 [5, 6])).pending = [] ∧
       (handleServerAccept demoConsts 100 (TcpServer.init 3 [5, 6])).connects_.length = 2) := by
  decide

/-- Claim C6 as amended. One run of handleServerAccept calls accept once. On an
empty backlog it changes nothing. Otherwise it takes the first pending
connection off the backlog, leaving the others pending, and passes it to
handleConnected: the table maps its descriptor to the new connection object,
the table grows by at most one entry, and the calls issued are one
onNewConntection, one addChannel and one addTimer. -/
theorem handleServerAccept_accepts_one (c : Consts) (deadline : Nat) (s : TcpServer) :
    (handleServerAccept c deadline s).pending = s.pending.tail ∧
    (match s.pending with
     | [] => handleServerAccept c deadline s = s
     | fd :: _ =>
       (handleServerAccept c deadline s).connects_.lookup fd = some s.nextConn ∧
       (handleServerAccept c deadline s).connects_.length ≤ s.connects_.length + 1 ∧
       (handleServerAccept c deadline s).trace
         = s.trace ++ [.onNewConntection s.nextConn, .addChannel fd, .addTimer fd]) := by
  cases hp : s.pending with
  | nil =>
    have : handleServerAccept c deadline s = s := by
      simp only [handleServerAccept, accept, hp]
    simp only [this, hp]
    exact ⟨rfl, trivial⟩
  | cons fd rest =>
    have : handleServerAccept c deadline s = handleConnected c deadline { s with pending := rest } fd := by
      simp only [handleServerAccept, accept, hp]
    rw [this]
    refine ⟨rfl, ?_, ?_, ?_⟩
    · simp [handleConnected, collect, emit, List.lookup_cons]
    · simp only [handleConnected, collect, emit, List.length_cons]
      exact Nat.succ_le_succ (List.length_filter_le _ _)
    · simp [handleConnected, collect, emit]


/-! ## Worker tasks (C5, C8) and idle expiry (C7) -/

namespace TcpServer

theorem lock_setConn (s : TcpServer) (w : Nat) (conn conn0 : TcpConnection)
    (h : s.lock w = some conn0) : (s.setConn w conn).lock w = some conn :=
  lookup_map_set _ _ _ _ h

theorem setEventsAndMod_eq (s : TcpServer) (w : Nat) (conn : TcpConnection) (ch : Channel)
    (events : Nat) (hch : conn.channel = some ch) :
    setEventsAndMod s w conn events = .ok
      { (s.setConn w { conn with channel := some { ch with events := events } }).emit
          (.modChannel ch.fd) with
        eventLoop_ := s.eventLoop_.modChannel { ch with events := events } } := by
  simp only [setEventsAndMod, hch]
  rfl

theorem closeFromWorker_eq (now : Nat) (s : TcpServer) (w : Nat) (conn : TcpConnection)
    (ch : Channel) (hch : conn.channel = some ch) :
    closeFromWorker now s w conn = .ok
      (handleConnectionClose
        { s.emit (.delTimer conn.fd) with
          eventLoop_ := s.eventLoop_.delTimer ⟨conn.fd, now, none⟩ } w) := by
  simp only [closeFromWorker, hch]

/-- The state of a worker task that keeps the connection open: interest
events replaced, modChannel requested. -/
theorem setEventsAndMod_facts (s : TcpServer) (w : Nat) (conn conn0 : TcpConnection) (ch : Channel)
    (events : Nat) (hlock : s.lock w = some conn0) (hch : conn.channel = some ch) :
    ∃ s', setEventsAndMod s w conn events = .ok s' ∧
      s'.lock w = some { conn with channel := some { ch with events := events } } ∧
      s'.trace = s.trace ++ [.modChannel ch.fd] ∧
      s'.connects_ = s.connects_ ∧
      s'.eventLoop_.timerQueue = s.eventLoop_.timerQueue := by
  refine ⟨_, setEventsAndMod_eq s w conn ch events hch, ?_, rfl, rfl, rfl⟩
  exact lock_setConn s w _ conn0 hlock

/-- The state of a worker task that closes a live connection: timer removed,
close handler run. -/
theorem closeFromWorker_facts (now : Nat) (s : TcpServer) (w : Nat) (conn : TcpConnection)
    (ch : Channel) (hlock : s.lock w = some conn) (hch : conn.channel = some ch)
    (hd : conn.disconnected = false) :
    ∃ s', closeFromWorker now s w conn = .ok s' ∧
      s'.trace = s.trace ++ [.delTimer conn.fd, .onCloseConntection w, .delChannel ch.fd] ∧
      s'.eventLoop_.timerQueue.timerHeap_.hasId conn.fd = false ∧
      s'.connects_.lookup conn.fd = none ∧
      s'.eventLoop_.isRegistered ch.fd = false ∧
      (s'.lock w = none ∨ s'.lock w = some { conn with disconnected := true }) := by
  refine ⟨_, closeFromWorker_eq now s w conn ch hch, ?_⟩
  have hl : ({ s.emit (.delTimer conn.fd) with
      eventLoop_ := s.eventLoop_.delTimer ⟨conn.fd, now, none⟩ } : TcpServer).lock w
      = some conn := hlock
  rw [handleConnectionClose_live _ w conn ch hl hch hd]
  refine ⟨?_, ?_, ?_, ?_, closeBody_lock _ w conn ch⟩
  · rw [closeBody_trace]; simp [emit]
  · rw [closeBody_timerQueue]; exact TimerHeap.hasId_del _ _
  · rw [closeBody_connects]; exact lookup_filter_ne _ _
  · unfold EventLoop.isRegistered
    rw [closeBody_registered]; exact any_filter_ne _ _

end TcpServer

/-- Claim C8. For a live connection (upgrade succeeds, not disconnected, channel
set) onSend returns, and by the outcome of `conn->send()`: on AGAIN, and on
COMPLETED with keep-alive, the interest events become EPOLLOUT resp. EPOLLIN
or-ed with kConnectionEvent, modChannel is requested, and the connection is
not closed (no close hook, table and timer queue untouched, flag still
false); on every other outcome (COMPLETED without keep-alive, CLOSED, ERROR)
the connection is closed: delTimer is requested and no timer with its id
remains, the close hook and delChannel are issued, the table has no entry
for its descriptor, the channel is not registered, and the object, if it is
still alive, is disconnected. -/
theorem onSend_outcomes (c : Consts) (now : Nat) (s : TcpServer) (w : Nat)
    (conn : TcpConnection) (ch : Channel) (status : StatusType) (sent : Nat)
    (hlock : s.lock w = some conn) (hch : conn.channel = some ch)
    (hd : conn.disconnected = false) :
    ∃ s', onSend c now s w status sent = .ok s' ∧
      if status = .AGAIN ∨ (status = .COMPLETED ∧ conn.keepAlive = true) then
        s'.lock w = some { conn with
          outBuf := conn.outBuf.drop sent
          channel := some { ch with
            events := (if status = .AGAIN then EPOLLOUT else EPOLLIN) ||| c.kConnectionEvent } } ∧
        s'.trace = s.trace ++ [.send w, .modChannel ch.fd] ∧
        s'.connects_ = s.connects_ ∧
        s'.eventLoop_.timerQueue = s.eventLoop_.timerQueue
      else
        s'.trace = s.trace ++
          [.send w, .delTimer conn.fd, .onCloseConntection w, .delChannel ch.fd] ∧
        s'.eventLoop_.timerQueue.timerHeap_.hasId conn.fd = false ∧
        s'.connects_.lookup conn.fd = none ∧
        s'.eventLoop_.isRegistered ch.fd = false ∧
        (s'.lock w = none ∨
          s'.lock w = some { conn with outBuf := conn.outBuf.drop sent, disconnected := true }) := by
  have hl1 : ((s.setConn w { conn with outBuf := conn.outBuf.drop sent }).emit (.send w)).lock w
      = some { conn with outBuf := conn.outBuf.drop sent } := lock_setConn s w _ conn hlock
  have keep : ∀ events, ∃ s', setEventsAndMod
        ((s.setConn w { conn with outBuf := conn.outBuf.drop sent }).emit (.send w)) w
        { conn with outBuf := conn.outBuf.drop sent } events = .ok s' ∧
      s'.lock w = some { conn with
          outBuf := conn.outBuf.drop sent
          channel := some { ch with events := events } } ∧
      s'.trace = s.trace ++ [.send w, .modChannel ch.fd] ∧
      s'.connects_ = s.connects_ ∧
      s'.eventLoop_.timerQueue = s.eventLoop_.timerQueue := by
    intro events
    obtain ⟨s', h1, h2, h3, h4, h5⟩ := setEventsAndMod_facts _ w
      { conn with outBuf := conn.outBuf.drop sent } _ ch events hl1 hch
    exact ⟨s', h1, h2, by rw [h3]; simp [emit, setConn], h4, h5⟩
  have close : ∃ s', closeFromWorker now
        ((s.setConn w { conn with outBuf := conn.outBuf.drop sent }).emit (.send w)) w
        { conn with outBuf := conn.outBuf.drop sent } = .ok s' ∧
      s'.trace = s.trace ++
          [.send w, .delTimer conn.fd, .onCloseConntection w, .delChannel ch.fd] ∧
      s'.eventLoop_.timerQueue.timerHeap_.hasId conn.fd = false ∧
      s'.connects_.lookup conn.fd = none ∧
      s'.eventLoop_.isRegistered ch.fd = false ∧
      (s'.lock w = none ∨
        s'.lock w = some { conn with outBuf := conn.outBuf.drop sent, disconnected := true }) := by
    obtain ⟨s', h1, h2, h3, h4, h5, h6⟩ := closeFromWorker_facts now _ w
      { conn with outBuf := conn.outBuf.drop sent } ch hl1 hch hd
    exact ⟨s', h1, by rw [h2]; simp [emit, setConn], h3, h4, h5, h6⟩
  cases status with
  | AGAIN =>
    obtain ⟨s', h1, h2⟩ := keep (EPOLLOUT ||| c.kConnectionEvent)
    exact ⟨s', by simp only [onSend, hlock]; exact h1, by simpa using h2⟩
  | COMPLETED =>
    cases hk : conn.keepAlive with
    | true =>
      obtain ⟨s', h1, h2⟩ := keep (EPOLLIN ||| c.kConnectionEvent)
      exact ⟨s', by simp only [onSend, hlock]; rw [if_pos hk]; exact h1, by simpa [hk] using h2⟩
    | false =>
      obtain ⟨s', h1, h2⟩ := close
      exact ⟨s', by simp only [onSend, hlock]; rw [if_neg (by simp [hk])]; exact h1,
        by simpa [hk] using h2⟩
  | OK =>
    obtain ⟨s', h1, h2⟩ := close
    exact ⟨s', by simp only [onSend, hlock]; exact h1, by simpa using h2⟩
  | CLOSED =>
    obtain ⟨s', h1, h2⟩ := close
    exact ⟨s', by simp only [onSend, hlock]; exact h1, by simpa using h2⟩
  | ERROR =>
    obtain ⟨s', h1, h2⟩ := close
    exact ⟨s', by simp only [onSend, hlock]; exact h1, by simpa using h2⟩


/-- Witness for C8: the connection of `oneConnection`, not keep-alive, whose
send completes. -/
theorem onSend_outcomes_witness :
    ∃ s', onSend demoConsts 0 oneConnection 0 .COMPLETED 0 = .ok s' ∧
      if StatusType.COMPLETED = .AGAIN ∨
          (StatusType.COMPLETED = .COMPLETED ∧ demoConnection.keepAlive = true) then
        s'.lock 0 = some { demoConnection with
          outBuf := demoConnection.outBuf.drop 0
          channel := some { demoChannel with
            events := (if StatusType.COMPLETED = .AGAIN then EPOLLOUT else EPOLLIN) |||
              demoConsts.kConnectionEvent } } ∧
        s'.trace = oneConnection.trace ++ [.send 0, .modChannel demoChannel.fd] ∧
        s'.connects_ = oneConnection.connects_ ∧
        s'.eventLoop_.timerQueue = oneConnection.eventLoop_.timerQueue
      else
        s'.trace = oneConnection.trace ++
          [.send 0, .delTimer demoConnection.fd, .onCloseConntection 0,
            .delChannel demoChannel.fd] ∧
        s'.eventLoop_.timerQueue.timerHeap_.hasId demoConnection.fd = false ∧
        s'.connects_.lookup demoConnection.fd = none ∧
        s'.eventLoop_.isRegistered demoChannel.fd = false ∧
        (s'.lock 0 = none ∨
          s'.lock 0 = some { demoConnection with
            outBuf := demoConnection.outBuf.drop 0, disconnected := true }) :=
  onSend_outcomes demoConsts 0 oneConnection 0 demoConnection demoChannel .COMPLETED 0
    (by decide) rfl rfl

/-- Claim C5 fails on the code. The connection object 0 of `closedButHeld` is
disconnected and its weak handle still upgrades. onRecv run on it calls recv
(two bytes arrive), runs onMessage, rewrites the interest events and requests
modChannel; onSend run on it calls send and, on CLOSED, requests delTimer.
Neither task looks at the disconnected flag. -/
theorem worker_tasks_ignore_disconnected_flag :
    (closedButHeld.lock 0).map (fun conn => (conn.disconnected, conn.inBuf,
      conn.channel.map (fun ch => ch.events))) = some (true, [], some 8193) ∧
    (onRecv demoConsts 0 closedButHeld 0 .OK [1, 2] .OK).toOption.map
      (fun s => (s.trace.drop closedButHeld.trace.length,
        (s.lock 0).map (fun conn => (conn.inBuf, conn.channel.map (fun ch => ch.events)))))
      = some ([.recv 0, .onMessage 0, .modChannel 5], some ([1, 2], some 8196)) ∧
    (onSend demoConsts 0 closedButHeld 0 .CLOSED 0).toOption.map
      (fun s => s.trace.drop closedButHeld.trace.length)
      = some [.send 0, .delTimer 5] := by
  decide

/-- Claim C7 fails on the code joined with the timer heap of the design
document. The timer pushed by handleConnected carries the close handler
bound to the connection, and without any dispatch its expiry closes the
connection. One read-ready (or write-ready) dispatch adjusts the timer with a
null callback, which replaces the stored handler; once the extended deadline
has passed, handleTimeout invokes the null callback, which throws, and the
connection is still in the table. -/
theorem dispatch_replaces_close_handler_by_null :
    oneConnection.eventLoop_.timerQueue.timerHeap_
      = [⟨5, 100, some (.handleConnectionClose 0)⟩] ∧
    (TimerQueue.handleTimeout (timerHost demoConsts 0) 300 5 oneConnection).toOption.map
      (fun r => (r.1.connects_, r.1.trace.drop oneConnection.trace.length))
      = some ([], [.onCloseConntection 0, .delChannel 5]) ∧
    (handleConnectionRead 200 oneConnection 0).eventLoop_.timerQueue.timerHeap_
      = [⟨5, 200, none⟩] ∧
    (handleConnectionWrite 200 oneConnection 0).eventLoop_.timerQueue.timerHeap_
      = [⟨5, 200, none⟩] ∧
    TimerQueue.handleTimeout (timerHost demoConsts 0) 300 5
      (handleConnectionRead 200 oneConnection 0) = .error .badFunctionCall ∧
    TimerQueue.handleTimeout (timerHost demoConsts 0) 300 5
      (handleConnectionWrite 200 oneConnection 0) = .error .badFunctionCall ∧
    (handleConnectionRead 200 oneConnection 0).connects_.lookup 5 = some 0 := by
  refine ⟨by decide, by decide, by decide, by decide, rfl, rfl, by decide⟩

end haha
